import Mathlib

/-!
Verification development for the `mq` package of `mq-subscriber`
(`NewAmqpDrive` / `listenConn` / `reconnected` / `SetChannel` /
`listenChannel` / `refreshChannel` / `CloseChannel` / `SetConsume`).

The Go source is embedded shallowly:
* pure data (JSON values, subscriber options, audit envelopes) becomes
  Lean structures and inductives;
* side effects (webhook calls, acks/nacks, audit pushes, sleeps, dials,
  spawns) become events collected in trace lists;
* the shared `utils.Sync*` registries (code of the repository that is not
  part of the analysed sources) are modelled from the spec as key→value
  stores, here sequential association lists;
* collaborator results (dial outcomes, `conn.Channel()` outcomes,
  `schema.Get` results, `channel.Consume` results, `actions.Fetch`
  results) are inputs to the embedded functions, quantified in theorems;
* the third-party JSON functions (`jsoniter.Valid`, `jsoniter.Unmarshal`,
  `gojsonschema.Validate` against the constant schema `{"type":"object"}`)
  are abstracted by pairing every byte string with its parse result:
  `jsoniter.Valid b` holds iff the parse result is `some`,
  `jsoniter.Unmarshal` yields the parsed value, `gojsonschema.Validate`
  errors iff the bytes do not parse, and its `result.Valid()` holds iff
  the parsed value is a JSON object.
-/

namespace MqSubscriber

/-- JSON values, the model of Go `interface{}` values produced by
`jsoniter.Unmarshal`. -/
inductive Json where
  | null : Json
  | bool (b : Bool) : Json
  | num (n : Int) : Json
  | str (s : String) : Json
  | arr (elems : List Json) : Json
  | obj (fields : List (String × Json)) : Json
deriving Repr

/-- Whether a JSON value is object-shaped: exactly the values accepted by
`gojsonschema` validation against the constant schema `{"type":"object"}`. -/
def Json.isObj : Json → Bool
  | .obj _ => true
  | _ => false

/-- Model of a Go byte string (`[]byte`) as seen through the JSON
collaborators: its raw text together with its abstract parse result
(`parsed = some v` iff `jsoniter.Valid` accepts the bytes, in which case
`jsoniter.Unmarshal` produces `v`). -/
structure Bytes where
  raw : String
  parsed : Option Json
deriving Repr

/-- Translation of `types.SubscriberOption` as used by `SetConsume` and
`refreshChannel` (fields read there: Identity, Queue, Url, Secret). -/
structure SubscriberOption where
  Identity : String
  Queue : String
  Url : String
  Secret : String
deriving Repr, DecidableEq

/-- Result of the webhook collaborator `actions.Fetch`: the response bytes
and the error list; each Go `error` is modelled by its `Error()` string. -/
structure FetchResult where
  body : Bytes
  errs : List String
deriving Repr

/-- Translation of the `map[string]interface{}` audit message literal built
in `SetConsume`'s delivery loop; one field per key of the Go map. -/
structure Envelope where
  Identity : String
  Queue : String
  Url : String
  Secret : String
  Body : Json
  Status : Bool
  Response : Json
  Time : Int
deriving Repr

/-- Translation of `types.LoggingPush`, the argument of `logging.Push`. -/
structure LoggingPush where
  Identity : String
  HasError : Bool
  Message : Envelope
deriving Repr

/-- Observable effects of one iteration of the delivery loop in
`SetConsume`: the `actions.Fetch` call, `d.Nack(multiple, requeue)`,
`d.Ack(multiple)`, and the audit push `logging.Push`. -/
inductive MsgEvent where
  | fetch (url secret bodyText : String) : MsgEvent
  | nack (multiple requeue : Bool) : MsgEvent
  | ack (multiple : Bool) : MsgEvent
  | push (p : LoggingPush) : MsgEvent
deriving Repr

/-- The `Response` value used when `gojsonschema.Validate` errors or the
response fails validation: `map[string]interface{}{"raw": string(body)}`. -/
def rawResponse (body : Bytes) : Json :=
  .obj [("raw", .str body.raw)]

/-- Translation of the response-record computation in the success branch
of the delivery loop: `gojsonschema.Validate` errors exactly when the
response bytes are not valid JSON (then the raw fallback is used);
otherwise `result.Valid()` holds exactly when the parsed value is an
object, and only then is the parsed value itself used. -/
def responseRecordOf (body : Bytes) : Json :=
  match body.parsed with
  | none => rawResponse body
  | some v => if v.isObj then v else rawResponse body

/-- Translation of the body of the per-delivery loop spawned by
`SetConsume` (the `for d := range msgs` body), for one delivery.
Inputs: the subscriber option, the delivery body `d.Body`, the result of
`actions.Fetch` for this delivery, and the current `time.Now().Unix()`.
Output: the list of observable events of the iteration, in program order,
and `true` iff the loop continues to the next delivery (`false` for the
`return` taken on a body rejected by `jsoniter.Valid`). -/
def processDelivery (option : SubscriberOption) (dBody : Bytes)
    (fetch : FetchResult) (now : Int) : List MsgEvent × Bool :=
  let fetchEv := MsgEvent.fetch option.Url option.Secret dBody.raw
  match dBody.parsed with
  | none => ([fetchEv, .nack false false], false)
  | some bodyRecord =>
    if fetch.errs ≠ [] then
      let msg := fetch.errs.map Json.str
      let message : Envelope :=
        { Identity := option.Identity
          Queue := option.Queue
          Url := option.Url
          Secret := option.Secret
          Body := bodyRecord
          Status := false
          Response := .obj [("errs", .arr msg)]
          Time := now }
      ([fetchEv, .nack false false,
        .push ⟨option.Identity, true, message⟩], true)
    else
      let responseRecord := responseRecordOf fetch.body
      let message : Envelope :=
        { Identity := option.Identity
          Queue := option.Queue
          Url := option.Url
          Secret := option.Secret
          Body := bodyRecord
          Status := true
          Response := responseRecord
          Time := now }
      ([fetchEv, .ack false,
        .push ⟨option.Identity, false, message⟩], true)

/-- Modelled from the spec: the Synchronized Registries
(`utils.SyncChannel`, `utils.SyncChannelDone`, `utils.SyncChannelReady`,
`utils.SyncNotifyChanClose` — repository code outside the analysed
sources) are "concurrency-safe key→value stores keyed by subscription
identity"; here a sequential association list whose `Set` shadows the
previous binding for the key. -/
def regSet {α : Type} (reg : List (String × α)) (k : String) (v : α) :
    List (String × α) :=
  (k, v) :: reg

/-- Modelled from the spec: registry lookup, returning the most recently
stored value for the key, or the supplied default (the Go zero value)
when the key was never set. -/
def regGet {α : Type} (reg : List (String × α)) (k : String) (dflt : α) : α :=
  (reg.lookup k).getD dflt

/-- Translation of `SetConsume` up to (and including) the decision to spawn
the delivery loop. `consumeRes` is the outcome of `channel.Consume(...)`
(`some e` when it fails with error `e`, `none` when a delivery stream is
obtained). Returns the error returned by `SetConsume`, the updated
`channelReady` registry, and whether the per-message goroutine was
spawned. -/
def setConsume (option : SubscriberOption) (consumeRes : Option String)
    (channelReady : List (String × Bool)) :
    Option String × List (String × Bool) × Bool :=
  match consumeRes with
  | some e => (some e, regSet channelReady option.Identity false, false)
  | none => (none, regSet channelReady option.Identity true, true)

/-- Environment outcomes one iteration of `refreshChannel` observes:
whether `c.SetChannel(ID)` succeeded, the result of `c.schema.Get(ID)`
(`none` for an error), and the `channel.Consume` outcome inside the
`c.SetConsume(option)` call. -/
structure RefreshEnv where
  setChannelOk : Bool
  schemaGetRes : Option SubscriberOption
  consumeRes : Option String
deriving Repr, DecidableEq

/-- How a run of `refreshChannel` ends: `success` for the `break` after
the "Channel refresh successfully" log, `abandoned` for the `break` taken
when a consume failure finds the ready flag false, `fuelOut` when the
supplied environment list is exhausted with the loop still running. -/
inductive RefreshOutcome where
  | success : RefreshOutcome
  | abandoned : RefreshOutcome
  | fuelOut : RefreshOutcome
deriving Repr, DecidableEq

/-- Translation of `refreshChannel(ID)`: one `RefreshEnv` per iteration of
the `for` loop (the list doubles as fuel), threading the `channelReady`
registry. `SetChannel` and `schema.Get` failures `continue` immediately;
after a `SetConsume` error the code checks `c.channelReady.Get(ID)` and
either retries (`continue`) or gives up (`break`). -/
def refreshChannel (ID : String) :
    List RefreshEnv → List (String × Bool) →
    RefreshOutcome × List (String × Bool)
  | [], reg => (.fuelOut, reg)
  | e :: rest, reg =>
    if e.setChannelOk = false then refreshChannel ID rest reg
    else
      match e.schemaGetRes with
      | none => refreshChannel ID rest reg
      | some option =>
        match setConsume option e.consumeRes reg with
        | (some _, reg1, _) =>
          if regGet reg1 ID false then refreshChannel ID rest reg1
          else (.abandoned, reg1)
        | (none, reg1, _) => (.success, reg1)

/-- Observable effects of the connection watcher `listenConn` and of the
`reconnected` retry loop, in program order. -/
inductive ConnEvent where
  | logDisconnected : ConnEvent
  | sleepSeconds (n : Nat) : ConnEvent
  | logReconnectAttempt (count : Nat) : ConnEvent
  | dialAttempt : ConnEvent
  | logDialError (e : String) : ConnEvent
  | setConn : ConnEvent
  | rearmNotifyClose : ConnEvent
  | spawnListenConn : ConnEvent
  | logReconnectSuccess : ConnEvent
deriving Repr, DecidableEq

/-- Translation of the `for` loop of `reconnected`, with the running
`count` made explicit: `dials` lists the outcome of each `amqp.Dial`
attempt (`some e` = failure with error `e`, `none` = success) and doubles
as fuel. Returns the event trace of the loop, or `none` when the fuel runs
out with every attempt failed (the loop is still running). -/
def reconnectedAux (count : Nat) :
    List (Option String) → Option (List ConnEvent)
  | [] => none
  | dialRes :: rest =>
    let pre : List ConnEvent :=
      [.sleepSeconds 5, .logReconnectAttempt (count + 1), .dialAttempt]
    match dialRes with
    | some e =>
      (reconnectedAux (count + 1) rest).map (fun t => pre ++ .logDialError e :: t)
    | none =>
      some (pre ++ [.setConn, .rearmNotifyClose, .spawnListenConn,
                    .logReconnectSuccess])

/-- Translation of `reconnected` (the `count` starts at 0). -/
def reconnected (dials : List (Option String)) : Option (List ConnEvent) :=
  reconnectedAux 0 dials

/-- Translation of `listenConn` after its `select` receives a value on
`notifyConnClose`: the error-level log followed by `reconnected`. -/
def listenConn (dials : List (Option String)) : Option (List ConnEvent) :=
  (reconnected dials).map (fun t => .logDisconnected :: t)

/-- The two signals the `select` in `listenChannel(ID)` waits on. -/
inductive ChanSignal where
  | closeNotify : ChanSignal
  | done : ChanSignal
deriving Repr, DecidableEq

/-- What the channel watcher does after its `select` fires. -/
inductive WatcherOutcome where
  | refresh : WatcherOutcome
  | exitQuietly : WatcherOutcome
deriving Repr, DecidableEq

/-- Translation of `listenChannel(ID)`: the branch taken for the first
signal received, given the `channelReady` registry at that moment. A
close notification triggers `refreshChannel` only when the ready flag is
true; the done-signal always exits without recovery. -/
def listenChannel (ID : String) (first : ChanSignal)
    (channelReady : List (String × Bool)) : WatcherOutcome :=
  match first with
  | .closeNotify =>
    if regGet channelReady ID false then .refresh else .exitQuietly
  | .done => .exitQuietly

/-- Steps of `CloseChannel(ID)` in program order: the send
`c.channelDone.Get(ID) <- 1`, then `c.channel.Get(ID).Close()`. -/
inductive CloseStep where
  | sendDone : CloseStep
  | closeHandle : CloseStep
deriving Repr, DecidableEq

/-- Translation of `CloseChannel`'s body as its ordered step list. -/
def closeChannelSteps : List CloseStep := [.sendDone, .closeHandle]

/-- Signal each `CloseChannel` step delivers to the identity's watcher:
the send on the unbuffered done-channel is a rendezvous received by the
watcher, and closing the handle fires the channel's close notification. -/
def stepSignal : CloseStep → ChanSignal
  | .sendDone => .done
  | .closeHandle => .closeNotify

/-- First signal the watcher receives while a step list runs: the signal
of the first step, because the unbuffered done-send completes only once
the watcher has received it — before any later step executes. -/
def firstSignal : List CloseStep → Option ChanSignal
  | [] => none
  | s :: _ => some (stepSignal s)

/-- Translation of `CloseChannel`'s return value: the error (if any) of
`channel.Close()`, propagated unchanged to the caller. -/
def closeChannelReturn (closeErr : Option String) : Option String :=
  closeErr

/-- A broker channel handle in the world model: its identifier, the
identity it was opened for, and whether it is still live (open). -/
structure Handle where
  hid : Nat
  owner : String
  live : Bool
deriving Repr, DecidableEq

/-- World state for the channel-handle invariant: every handle ever
created by `conn.Channel()`, and the `utils.SyncChannel` registry mapping
identities to handle identifiers. -/
structure ChanWorld where
  nextId : Nat
  handles : List Handle
  registry : List (String × Nat)
deriving Repr, DecidableEq

/-- The world before any channel was opened. -/
def emptyWorld : ChanWorld := ⟨0, [], []⟩

/-- Number of live channel handles opened for identity `ID`. -/
def liveCount (w : ChanWorld) (ID : String) : Nat :=
  (w.handles.filter (fun h => h.owner == ID && h.live)).length

/-- Translation of `SetChannel(ID)`'s effect on channel handles. When
`conn.Channel()` succeeds, a fresh live handle is created and
`c.channel.Set(ID, channel)` overwrites the registry entry for `ID`; the
previous handle, if any, is neither checked for liveness nor closed. When
`conn.Channel()` fails, `SetChannel` returns before any mutation. -/
def setChannelW (ID : String) (connChannelOk : Bool) (w : ChanWorld) :
    ChanWorld :=
  if connChannelOk then
    { nextId := w.nextId + 1
      handles := ⟨w.nextId, ID, true⟩ :: w.handles
      registry := regSet w.registry ID w.nextId }
  else w

/-- Shallow state of an `AmqpDrive` session as assigned by `NewAmqpDrive`:
`url`, whether the `schema` and `logging` fields were assigned, the
dialled connection handle, whether `conn.NotifyClose` was armed, whether
the `listenConn` watcher goroutine was spawned, and whether each of the
four per-identity registries was allocated by its `utils.NewSync*`
constructor (Modelled from the spec: each constructor allocates an empty
key→value store). -/
structure SessionState where
  url : String
  schemaSet : Bool
  loggingSet : Bool
  conn : Option Nat
  notifyConnCloseArmed : Bool
  listenConnSpawned : Bool
  channelAlloc : Bool
  channelDoneAlloc : Bool
  channelReadyAlloc : Bool
  notifyChanCloseAlloc : Bool
deriving Repr, DecidableEq

/-- Translation of `NewAmqpDrive(url, schema, logging)`: `dialRes` is the
result of `amqp.Dial(url)` (`.error e` a failure, `.ok h` the obtained
connection handle). Returns the named return `session` — already
allocated, with `url`, `schema` and `logging` assigned before the dial —
together with the returned error. -/
def newAmqpDrive (url : String) (dialRes : Except String Nat) :
    SessionState × Option String :=
  let session0 : SessionState :=
    { url := url, schemaSet := true, loggingSet := true, conn := none
      notifyConnCloseArmed := false, listenConnSpawned := false
      channelAlloc := false, channelDoneAlloc := false
      channelReadyAlloc := false, notifyChanCloseAlloc := false }
  match dialRes with
  | .error e => (session0, some e)
  | .ok h =>
    ({ session0 with
        conn := some h, notifyConnCloseArmed := true
        listenConnSpawned := true, channelAlloc := true
        channelDoneAlloc := true, channelReadyAlloc := true
        notifyChanCloseAlloc := true }, none)

theorem regGet_regSet_self {α : Type} (reg : List (String × α)) (k : String)
    (v d : α) : regGet (regSet reg k v) k d = v := by
  simp [regGet, regSet, List.lookup]

/-- C1, counterexample: for the delivery body `"not json"`, which is not
valid JSON, the per-message loop still calls the webhook collaborator —
the `actions.Fetch` event is the first event of the iteration's trace, so
the claim that the body is validated before any webhook call and that the
webhook is called only for well-formed bodies is false on this input. -/
theorem c1_webhook_called_on_malformed_body :
    (Bytes.mk "not json" none).parsed = none ∧
    MsgEvent.fetch "https://hook.example/x" "sec" "not json" ∈
      (processDelivery ⟨"orders-1", "orders", "https://hook.example/x", "sec"⟩
        ⟨"not json", none⟩ ⟨⟨"", none⟩, []⟩ 0).1 ∧
    (processDelivery ⟨"orders-1", "orders", "https://hook.example/x", "sec"⟩
        ⟨"not json", none⟩ ⟨⟨"", none⟩, []⟩ 0).1 =
      [MsgEvent.fetch "https://hook.example/x" "sec" "not json",
       MsgEvent.nack false false] :=
  ⟨rfl, List.Mem.head _, rfl⟩

/-- C1 (amended): for every consumed delivery whose raw body is not valid
JSON, the per-message loop rejects the message with requeue=false, emits
no audit record for it, and ends the consuming loop — but the webhook
collaborator has already been called: `actions.Fetch` runs before the
validity check, so the body is validated after the webhook call, not
before it. -/
theorem c1_malformed_body_rejected_no_audit (option : SubscriberOption)
    (dBody : Bytes) (fetch : FetchResult) (now : Int)
    (h : dBody.parsed = none) :
    processDelivery option dBody fetch now =
      ([MsgEvent.fetch option.Url option.Secret dBody.raw,
        MsgEvent.nack false false], false) := by
  simp [processDelivery, h]

theorem c1_malformed_body_rejected_no_audit_witness :
    (Bytes.mk "oops" none).parsed = none ∧
    processDelivery ⟨"orders-1", "orders", "https://hook.example/x", "sec"⟩
        ⟨"oops", none⟩ ⟨⟨"", none⟩, []⟩ 3 =
      ([MsgEvent.fetch "https://hook.example/x" "sec" "oops",
        MsgEvent.nack false false], false) :=
  ⟨rfl, c1_malformed_body_rejected_no_audit
    ⟨"orders-1", "orders", "https://hook.example/x", "sec"⟩
    ⟨"oops", none⟩ ⟨⟨"", none⟩, []⟩ 3 rfl⟩

/-- C2: for every consumed delivery with a valid-JSON body for which the
webhook collaborator returns a non-empty error list, the loop rejects the
message with `d.Nack(false, false)` (requeue=false) and pushes an audit
record with Status=false, Response the object whose `errs` field lists
the stringified errors, and HasError=true. -/
theorem c2_forward_error_rejected_and_audited (option : SubscriberOption)
    (dBody : Bytes) (fetch : FetchResult) (now : Int) (v : Json)
    (hv : dBody.parsed = some v) (he : fetch.errs ≠ []) :
    processDelivery option dBody fetch now =
      ([MsgEvent.fetch option.Url option.Secret dBody.raw,
        MsgEvent.nack false false,
        MsgEvent.push ⟨option.Identity, true,
          { Identity := option.Identity, Queue := option.Queue
            Url := option.Url, Secret := option.Secret, Body := v
            Status := false
            Response := .obj [("errs", .arr (fetch.errs.map Json.str))]
            Time := now }⟩], true) := by
  simp [processDelivery, hv, he]

theorem c2_forward_error_rejected_and_audited_witness :
    processDelivery ⟨"orders-1", "orders", "https://hook.example/x", "sec"⟩
        ⟨"id-payload", some (.obj [("id", .num 1)])⟩
        ⟨⟨"", none⟩, ["network error", "status 500"]⟩ 7 =
      ([MsgEvent.fetch "https://hook.example/x" "sec" "id-payload",
        MsgEvent.nack false false,
        MsgEvent.push ⟨"orders-1", true,
          { Identity := "orders-1", Queue := "orders"
            Url := "https://hook.example/x", Secret := "sec"
            Body := .obj [("id", .num 1)]
            Status := false
            Response := .obj [("errs",
              .arr [.str "network error", .str "status 500"])]
            Time := 7 }⟩], true) :=
  c2_forward_error_rejected_and_audited
    ⟨"orders-1", "orders", "https://hook.example/x", "sec"⟩
    ⟨"id-payload", some (.obj [("id", .num 1)])⟩
    ⟨⟨"", none⟩, ["network error", "status 500"]⟩ 7
    (.obj [("id", .num 1)]) rfl (by simp)

/-- C3: for every consumed delivery with a valid-JSON body whose webhook
call returns an empty error list, the loop acknowledges the message with
`d.Ack(false)` and pushes an audit record with Status=true and
HasError=false, whose Response is the parsed response JSON when the
response bytes validate as object-shaped JSON, and the raw fallback
object otherwise (validation error on unparsable bytes, or a parsed value
that is not an object). -/
theorem c3_success_ack_and_audit (option : SubscriberOption)
    (dBody : Bytes) (fetch : FetchResult) (now : Int) (v : Json)
    (hv : dBody.parsed = some v) (he : fetch.errs = []) :
    processDelivery option dBody fetch now =
      ([MsgEvent.fetch option.Url option.Secret dBody.raw,
        MsgEvent.ack false,
        MsgEvent.push ⟨option.Identity, false,
          { Identity := option.Identity, Queue := option.Queue
            Url := option.Url, Secret := option.Secret, Body := v
            Status := true
            Response := responseRecordOf fetch.body
            Time := now }⟩], true) ∧
    (∀ r, fetch.body.parsed = some r → r.isObj = true →
      responseRecordOf fetch.body = r) ∧
    (fetch.body.parsed = none →
      responseRecordOf fetch.body = rawResponse fetch.body) ∧
    (∀ r, fetch.body.parsed = some r → r.isObj = false →
      responseRecordOf fetch.body = rawResponse fetch.body) := by
  refine ⟨by simp [processDelivery, hv, he], ?_, ?_, ?_⟩
  · intro r hr hobj
    simp [responseRecordOf, hr, hobj]
  · intro hr
    simp [responseRecordOf, hr]
  · intro r hr hobj
    simp [responseRecordOf, hr, hobj]

theorem c3_success_ack_and_audit_witness :
    processDelivery ⟨"orders-1", "orders", "https://hook.example/x", "sec"⟩
        ⟨"1", some (.num 1)⟩
        ⟨⟨"ok-response", some (.obj [("ok", .bool true)])⟩, []⟩ 9 =
      ([MsgEvent.fetch "https://hook.example/x" "sec" "1",
        MsgEvent.ack false,
        MsgEvent.push ⟨"orders-1", false,
          { Identity := "orders-1", Queue := "orders"
            Url := "https://hook.example/x", Secret := "sec"
            Body := .num 1
            Status := true
            Response := responseRecordOf ⟨"ok-response", some (.obj [("ok", .bool true)])⟩
            Time := 9 }⟩], true) ∧
    responseRecordOf ⟨"ok-response", some (.obj [("ok", .bool true)])⟩ =
      .obj [("ok", .bool true)] :=
  ⟨(c3_success_ack_and_audit
      ⟨"orders-1", "orders", "https://hook.example/x", "sec"⟩
      ⟨"1", some (.num 1)⟩
      ⟨⟨"ok-response", some (.obj [("ok", .bool true)])⟩, []⟩ 9
      (.num 1) rfl rfl).1,
   (c3_success_ack_and_audit
      ⟨"orders-1", "orders", "https://hook.example/x", "sec"⟩
      ⟨"1", some (.num 1)⟩
      ⟨⟨"ok-response", some (.obj [("ok", .bool true)])⟩, []⟩ 9
      (.num 1) rfl rfl).2.1 (.obj [("ok", .bool true)]) rfl rfl⟩

/-- C4: in `refreshChannel(ID)`, a `SetChannel` failure or a `schema.Get`
failure makes the loop `continue` immediately into the next iteration
with the registry untouched and no delay; a `SetConsume` failure finds
the ready flag false — `SetConsume` has just cleared it — so the loop
breaks, leaving the subscription inactive (a retry would occur only with
the flag still true); on `SetConsume` success the loop logs and exits
with the flag set true. -/
theorem c4_refresh_retry_structure (ID : String) (e : RefreshEnv)
    (rest : List RefreshEnv) (reg : List (String × Bool)) :
    (e.setChannelOk = false →
      refreshChannel ID (e :: rest) reg = refreshChannel ID rest reg) ∧
    (e.setChannelOk = true → e.schemaGetRes = none →
      refreshChannel ID (e :: rest) reg = refreshChannel ID rest reg) ∧
    (∀ option err, e.setChannelOk = true → e.schemaGetRes = some option →
      option.Identity = ID → e.consumeRes = some err →
      refreshChannel ID (e :: rest) reg =
        (.abandoned, regSet reg ID false)) ∧
    (∀ option, e.setChannelOk = true → e.schemaGetRes = some option →
      e.consumeRes = none →
      refreshChannel ID (e :: rest) reg =
        (.success, regSet reg option.Identity true)) := by
  refine ⟨?_, ?_, ?_, ?_⟩
  · intro h1
    simp [refreshChannel, h1]
  · intro h1 h2
    simp [refreshChannel, h1, h2]
  · intro option err h1 h2 h3 h4
    subst h3
    simp [refreshChannel, h1, h2, h4, setConsume, regGet_regSet_self]
  · intro option h1 h2 h3
    simp [refreshChannel, h1, h2, h3, setConsume]

theorem c4_refresh_retry_structure_witness :
    (refreshChannel "sub" [⟨false, none, none⟩] [] =
      refreshChannel "sub" [] []) ∧
    (refreshChannel "sub" [⟨true, none, none⟩] [] =
      refreshChannel "sub" [] []) ∧
    (refreshChannel "sub" [⟨true, some ⟨"sub", "q", "u", "s"⟩, some "consume failed"⟩] [] =
      (.abandoned, regSet [] "sub" false)) ∧
    (refreshChannel "sub" [⟨true, some ⟨"sub", "q", "u", "s"⟩, none⟩] [] =
      (.success, regSet [] "sub" true)) :=
  ⟨(c4_refresh_retry_structure "sub" ⟨false, none, none⟩ [] []).1 rfl,
   (c4_refresh_retry_structure "sub" ⟨true, none, none⟩ [] []).2.1 rfl rfl,
   (c4_refresh_retry_structure "sub"
      ⟨true, some ⟨"sub", "q", "u", "s"⟩, some "consume failed"⟩ [] []).2.2.1
     ⟨"sub", "q", "u", "s"⟩ "consume failed" rfl rfl rfl rfl,
   (c4_refresh_retry_structure "sub"
      ⟨true, some ⟨"sub", "q", "u", "s"⟩, none⟩ [] []).2.2.2
     ⟨"sub", "q", "u", "s"⟩ rfl rfl rfl⟩

/-- C9: the retry branch of `refreshChannel` taken after a `SetConsume`
failure with the ready flag still true is unreachable: `SetConsume` sets
the identity's ready flag to false before returning any error, so the
flag read just after a consume failure is false and the loop breaks at
once instead of recursing. -/
theorem c9_consume_failure_retry_unreachable (ID : String)
    (option : SubscriberOption) (err : String) (e : RefreshEnv)
    (rest : List RefreshEnv) (reg : List (String × Bool))
    (hid : option.Identity = ID) (h1 : e.setChannelOk = true)
    (h2 : e.schemaGetRes = some option) (h3 : e.consumeRes = some err) :
    regGet (setConsume option (some err) reg).2.1 ID false = false ∧
    refreshChannel ID (e :: rest) reg = (.abandoned, regSet reg ID false) := by
  subst hid
  constructor
  · simp [setConsume, regGet_regSet_self]
  · simp [refreshChannel, h1, h2, h3, setConsume, regGet_regSet_self]

theorem c9_consume_failure_retry_unreachable_witness :
    regGet (setConsume ⟨"sub2", "q", "u", "s"⟩ (some "boom") [("sub2", true)]).2.1
      "sub2" false = false ∧
    refreshChannel "sub2"
        [⟨true, some ⟨"sub2", "q", "u", "s"⟩, some "boom"⟩] [("sub2", true)] =
      (.abandoned, regSet [("sub2", true)] "sub2" false) :=
  c9_consume_failure_retry_unreachable "sub2" ⟨"sub2", "q", "u", "s"⟩ "boom"
    ⟨true, some ⟨"sub2", "q", "u", "s"⟩, some "boom"⟩ [] [("sub2", true)]
    rfl rfl rfl rfl

/-- C6: `SetConsume` returns an error exactly when `channel.Consume` fails
to establish the delivery stream; on failure it has set the identity's
ready flag to false in the registry it returns, without spawning the
per-message loop, and on success it has set the flag to true and spawned
the loop. -/
theorem c6_setConsume_contract (option : SubscriberOption)
    (consumeRes : Option String) (reg : List (String × Bool)) :
    ((setConsume option consumeRes reg).1.isSome ↔ consumeRes.isSome) ∧
    (∀ err, consumeRes = some err →
      (setConsume option consumeRes reg).1 = some err ∧
      regGet (setConsume option consumeRes reg).2.1 option.Identity false = false ∧
      (setConsume option consumeRes reg).2.2 = false) ∧
    (consumeRes = none →
      (setConsume option consumeRes reg).1 = none ∧
      regGet (setConsume option consumeRes reg).2.1 option.Identity false = true ∧
      (setConsume option consumeRes reg).2.2 = true) := by
  cases consumeRes <;>
    simp [setConsume, regGet_regSet_self]

theorem c6_setConsume_contract_witness :
    ((setConsume ⟨"sub3", "q", "u", "s"⟩ (some "no stream") []).1 = some "no stream" ∧
     regGet (setConsume ⟨"sub3", "q", "u", "s"⟩ (some "no stream") []).2.1
       "sub3" false = false ∧
     (setConsume ⟨"sub3", "q", "u", "s"⟩ (some "no stream") []).2.2 = false) ∧
    ((setConsume ⟨"sub3", "q", "u", "s"⟩ none []).1 = none ∧
     regGet (setConsume ⟨"sub3", "q", "u", "s"⟩ none []).2.1 "sub3" false = true ∧
     (setConsume ⟨"sub3", "q", "u", "s"⟩ none []).2.2 = true) :=
  ⟨(c6_setConsume_contract ⟨"sub3", "q", "u", "s"⟩ (some "no stream") []).2.1
      "no stream" rfl,
   (c6_setConsume_contract ⟨"sub3", "q", "u", "s"⟩ none []).2.2 rfl⟩

/-- C5: during `CloseChannel(ID)` the send on the unbuffered done-channel
is the first step and therefore the first signal the identity's watcher
receives; on the done-signal the watcher exits without recovery whatever
the ready registry holds — it never invokes the refresh procedure — and
only the later step closes the underlying channel handle, whose close
error `CloseChannel` returns to the caller unchanged. -/
theorem c5_close_channel_never_refreshes (ID : String)
    (reg : List (String × Bool)) (closeErr : Option String) :
    closeChannelSteps = [CloseStep.sendDone, CloseStep.closeHandle] ∧
    firstSignal closeChannelSteps = some ChanSignal.done ∧
    listenChannel ID ChanSignal.done reg = WatcherOutcome.exitQuietly ∧
    listenChannel ID ChanSignal.done reg ≠ WatcherOutcome.refresh ∧
    closeChannelReturn closeErr = closeErr := by
  refine ⟨rfl, rfl, rfl, ?_, rfl⟩
  simp [listenChannel]

theorem reconnectedAux_sleep_five (dials : List (Option String)) :
    ∀ count t, reconnectedAux count dials = some t →
      ∀ n, ConnEvent.sleepSeconds n ∈ t → n = 5 := by
  induction dials with
  | nil =>
    intro count t h n hn
    simp [reconnectedAux] at h
  | cons d rest ih =>
    intro count t h n hn
    cases d with
    | some e =>
      simp only [reconnectedAux, Option.map_eq_some'] at h
      obtain ⟨t', ht', rfl⟩ := h
      simp only [List.cons_append, List.nil_append, List.mem_cons] at hn
      rcases hn with h5 | h5 | h5 | h5 | h5
      · exact (ConnEvent.sleepSeconds.injEq _ _).mp h5
      · exact absurd h5 (by simp)
      · exact absurd h5 (by simp)
      · exact absurd h5 (by simp)
      · exact ih (count + 1) t' ht' n h5
    | none =>
      simp only [reconnectedAux, Option.some.injEq] at h
      subst h
      simp at hn
      exact hn

theorem reconnectedAux_none_of_all_fail (dials : List (Option String))
    (h : ∀ d ∈ dials, d.isSome) :
    ∀ count, reconnectedAux count dials = none := by
  induction dials with
  | nil =>
    intro count
    rfl
  | cons d rest ih =>
    intro count
    have hd : d.isSome := h d (by simp)
    cases d with
    | none => simp at hd
    | some e =>
      simp only [reconnectedAux, Option.map_eq_none']
      exact ih (fun x hx => h x (by simp [hx])) (count + 1)

/-- C7: after the connection watcher receives a close notification, it
logs the disconnection at error level and enters an unbounded retry loop:
every trace the loop produces sleeps exactly 5 seconds at the start of
each iteration, before the dial (no backoff growth); a failed dial logs
the error and retries with the next iteration identical in shape; while
every dial fails the loop produces no result (no retry cap — it exits
only after a successful dial); and a successful dial replaces the
connection handle, re-arms the close notification, spawns a new watcher,
logs success, and ends the loop. -/
theorem c7_connection_watcher (count n : Nat) (e : String)
    (rest dials : List (Option String)) (t : List ConnEvent) :
    (listenConn dials = some t → t.head? = some ConnEvent.logDisconnected) ∧
    (reconnected dials = some t → ConnEvent.sleepSeconds n ∈ t → n = 5) ∧
    ((∀ d ∈ dials, d.isSome) → reconnected dials = none) ∧
    (reconnectedAux count (some e :: rest) =
      (reconnectedAux (count + 1) rest).map
        (fun tail => [ConnEvent.sleepSeconds 5,
                      .logReconnectAttempt (count + 1), .dialAttempt,
                      .logDialError e] ++ tail)) ∧
    (reconnectedAux count (none :: rest) =
      some [ConnEvent.sleepSeconds 5, .logReconnectAttempt (count + 1),
            .dialAttempt, .setConn, .rearmNotifyClose, .spawnListenConn,
            .logReconnectSuccess]) := by
  refine ⟨?_, ?_, ?_, ?_, ?_⟩
  · intro h
    simp only [listenConn, Option.map_eq_some'] at h
    obtain ⟨t', _, rfl⟩ := h
    rfl
  · intro h hn
    exact reconnectedAux_sleep_five dials 0 t h n hn
  · intro h
    exact reconnectedAux_none_of_all_fail dials h 0
  · rfl
  · rfl

theorem c7_connection_watcher_witness :
    (([ConnEvent.logDisconnected, .sleepSeconds 5, .logReconnectAttempt 1,
       .dialAttempt, .logDialError "refused", .sleepSeconds 5,
       .logReconnectAttempt 2, .dialAttempt, .setConn, .rearmNotifyClose,
       .spawnListenConn, .logReconnectSuccess] : List ConnEvent).head? =
      some ConnEvent.logDisconnected) ∧
    5 = 5 ∧
    reconnected [some "refused", some "refused again"] = none :=
  ⟨(c7_connection_watcher 0 5 "refused" []
      [some "refused", none]
      [ConnEvent.logDisconnected, .sleepSeconds 5, .logReconnectAttempt 1,
       .dialAttempt, .logDialError "refused", .sleepSeconds 5,
       .logReconnectAttempt 2, .dialAttempt, .setConn, .rearmNotifyClose,
       .spawnListenConn, .logReconnectSuccess]).1 rfl,
   (c7_connection_watcher 0 5 "refused" []
      [some "refused", none]
      [ConnEvent.sleepSeconds 5, .logReconnectAttempt 1,
       .dialAttempt, .logDialError "refused", .sleepSeconds 5,
       .logReconnectAttempt 2, .dialAttempt, .setConn, .rearmNotifyClose,
       .spawnListenConn, .logReconnectSuccess]).2.1 rfl (List.Mem.head _),
   (c7_connection_watcher 0 5 "refused" []
      [some "refused", some "refused again"] []).2.2.1 (by simp)⟩

/-- C8, counterexample: `SetChannel` has no liveness guard — calling it
twice in a row for identity "a", both `conn.Channel()` calls succeeding
and the first handle never closed, leaves two live channel handles opened
for "a"; the claim that every install replaces the registry entry only
when the previous handle is no longer live is false on this input. -/
theorem c8_counterexample_double_open :
    liveCount (setChannelW "a" true (setChannelW "a" true emptyWorld)) "a" = 2 := by
  decide

/-- C8 (amended): `SetChannel` installs a fresh live handle and overwrites
the registry entry unconditionally, with no check that the previous
handle is dead; the at-most-one-live-handle invariant is preserved
exactly when `SetChannel` runs while the identity has no live handle —
the situation on the refresh path, where the previous channel has already
closed: afterwards the identity has exactly one live handle, and no other
identity's live-handle count changes. -/
theorem c8_setChannel_single_live_when_prev_dead (ID : String) (ok : Bool)
    (w : ChanWorld) (h : liveCount w ID = 0) :
    liveCount (setChannelW ID true w) ID = 1 ∧
    (∀ other, ID ≠ other →
      liveCount (setChannelW ID ok w) other = liveCount w other) := by
  have h' : (w.handles.filter (fun hd => hd.owner == ID && hd.live)).length = 0 := h
  constructor
  · simp [liveCount, setChannelW, List.filter_cons, h']
  · intro other hne
    cases ok with
    | false => simp [setChannelW]
    | true =>
      have hbeq : (ID == other) = false := beq_eq_false_iff_ne.mpr hne
      simp [liveCount, setChannelW, List.filter_cons, hbeq]

theorem c8_setChannel_single_live_when_prev_dead_witness :
    liveCount (setChannelW "a" true emptyWorld) "a" = 1 ∧
    liveCount (setChannelW "a" true emptyWorld) "b" = liveCount emptyWorld "b" :=
  ⟨(c8_setChannel_single_live_when_prev_dead "a" true emptyWorld rfl).1,
   (c8_setChannel_single_live_when_prev_dead "a" true emptyWorld rfl).2
     "b" (by decide)⟩

/-- C10: `NewAmqpDrive` returns an error exactly when `amqp.Dial` fails;
on failure it returns before spawning the `listenConn` watcher and before
allocating any of the four per-identity registries, so the session
carries only the url, schema and logging assignments; on success the
session has the connection stored, the close notification armed, the
watcher spawned, and all four registries allocated. -/
theorem c10_newAmqpDrive_contract (url : String)
    (dialRes : Except String Nat) :
    ((newAmqpDrive url dialRes).2.isSome ↔ ∃ e, dialRes = .error e) ∧
    (∀ e, dialRes = .error e →
      newAmqpDrive url dialRes =
        ({ url := url, schemaSet := true, loggingSet := true, conn := none
           notifyConnCloseArmed := false, listenConnSpawned := false
           channelAlloc := false, channelDoneAlloc := false
           channelReadyAlloc := false, notifyChanCloseAlloc := false },
         some e)) ∧
    (∀ hconn, dialRes = .ok hconn →
      newAmqpDrive url dialRes =
        ({ url := url, schemaSet := true, loggingSet := true
           conn := some hconn
           notifyConnCloseArmed := true, listenConnSpawned := true
           channelAlloc := true, channelDoneAlloc := true
           channelReadyAlloc := true, notifyChanCloseAlloc := true },
         none)) := by
  cases dialRes <;> simp [newAmqpDrive]

theorem c10_newAmqpDrive_contract_witness :
    newAmqpDrive "amqp://broker" (.error "dial failed") =
      ({ url := "amqp://broker", schemaSet := true, loggingSet := true
         conn := none
         notifyConnCloseArmed := false, listenConnSpawned := false
         channelAlloc := false, channelDoneAlloc := false
         channelReadyAlloc := false, notifyChanCloseAlloc := false },
       some "dial failed") ∧
    newAmqpDrive "amqp://broker" (.ok 42) =
      ({ url := "amqp://broker", schemaSet := true, loggingSet := true
         conn := some 42
         notifyConnCloseArmed := true, listenConnSpawned := true
         channelAlloc := true, channelDoneAlloc := true
         channelReadyAlloc := true, notifyChanCloseAlloc := true },
       none) :=
  ⟨(c10_newAmqpDrive_contract "amqp://broker" (.error "dial failed")).2.1
      "dial failed" rfl,
   (c10_newAmqpDrive_contract "amqp://broker" (.ok 42)).2.2 42 rfl⟩

end MqSubscriber
